import Mathlib

/-!
Shallow embedding of the browser-rts client core (src/client/src/lib.rs).

Rust f64 coordinates are modelled as exact rationals (Rat); every arithmetic
operation appearing in the claims (add, sub, mul, div, min, max, comparisons)
is exact on the inputs involved, and decimal literals such as 0.9 denote the
exact rational 9/10.  The Euclidean-distance test
`(dx*dx + dy*dy).sqrt() < 10.0` from is_clicking_selected_troop is embedded as
the equivalent `dx*dx + dy*dy < 10.0 * 10.0` (for nonnegative d and r ≥ 0,
sqrt d < r iff d < r*r), since Rat has no square root.

The wasm/canvas handles (HtmlCanvasElement, CanvasRenderingContext2d) and the
JS values are external; the canvas bounding rectangle is passed to each
handler explicitly, and the JS objects built by handle_click and
handle_right_click are embedded as the records SpawnData and MoveData holding
exactly the fields the Rust code sets via Reflect.
-/

/-- Player record from lib.rs. -/
structure Player where
  id : Nat
  position : Rat × Rat
  color : Nat × Nat × Nat
deriving DecidableEq

/-- Troop record from lib.rs, with all fields, including the optional
per-unit-type tuning fields. -/
structure Troop where
  id : Nat
  player_id : Nat
  position : Rat × Rat
  direction : Rat × Rat
  speed : Rat
  health : Rat
  attack : Rat
  color : Nat × Nat × Nat
  shape : String
  unit_type : String
  is_attacking : Bool
  weight : Rat
  attack_speed : Option Rat
  attack_range : Option Rat
  attack_cooldown : Option Rat
  attack_rate : Option Rat
  max_speed : Option Rat
  acceleration : Option Rat
  min_range : Option Rat
  max_range : Option Rat
  target : Option Nat
deriving DecidableEq

/-- Projectile record from lib.rs. -/
structure Projectile where
  id : Nat
  player_id : Nat
  position : Rat × Rat
  direction : Rat × Rat
  speed : Rat
  damage : Rat
  time_to_live : Rat
  color : Nat × Nat × Nat
deriving DecidableEq

/-- GameState record (the snapshot) from lib.rs. -/
structure GameState where
  players : List Player
  troops : List Troop
  projectiles : List Projectile
  map_size : Rat × Rat
deriving DecidableEq

/-- DevData record from lib.rs; the troops_by_player JS Object is opaque to
the core and modelled as an association list. -/
structure DevData where
  fps : Rat
  player_count : Nat
  troop_count : Nat
  troops_by_player : List (Nat × Nat)
deriving DecidableEq

/-- MouseEvent fields the handlers read: client_x, client_y (i32, cast to f64
in the Rust code), button, alt_key. -/
structure MouseEvent where
  client_x : Int
  client_y : Int
  button : Nat
  alt_key : Bool
deriving DecidableEq

/-- Canvas bounding client rectangle: the two fields the handlers read. -/
structure Rect where
  left : Rat
  top : Rat
deriving DecidableEq

/-- Renderer state from lib.rs, without the external canvas/context handles. -/
structure Renderer where
  camera_x : Rat
  camera_y : Rat
  zoom : Rat
  is_dragging : Bool
  last_mouse_x : Rat
  last_mouse_y : Rat
  player_id : Option Nat
  game_state : Option GameState
  dev_data : Option DevData
  show_dev_tools : Bool
  selection_start : Option (Rat × Rat)
  selection_end : Option (Rat × Rat)
  selected_troops : List Nat
deriving DecidableEq

/-- Renderer::new field initialisation from lib.rs (canvas lookup elided). -/
def Renderer.new : Renderer :=
  { camera_x := 0
    camera_y := 0
    zoom := 1
    is_dragging := false
    last_mouse_x := 0
    last_mouse_y := 0
    player_id := none
    game_state := none
    dev_data := none
    show_dev_tools := true
    selection_start := none
    selection_end := none
    selected_troops := [] }

/-- set_player_id from lib.rs. -/
def Renderer.set_player_id (r : Renderer) (pid : Nat) : Renderer :=
  { r with player_id := some pid }

/-- Deserialization failures surfaced by serde_wasm_bindgen::from_value are
opaque to this core; the error payload is modelled as a string. -/
abbrev DeserializationError := String

/-- update_game_state from lib.rs: the result of the external serde
deserialization of the JsValue payload is passed in as an Except; on success
the stored snapshot is replaced wholesale, on failure the question-mark
operator returns early before any field is written. -/
def Renderer.update_game_state (r : Renderer)
    (parsed : Except DeserializationError GameState) :
    Renderer × Except DeserializationError Unit :=
  match parsed with
  | Except.ok gs => ({ r with game_state := some gs }, Except.ok ())
  | Except.error e => (r, Except.error e)

/-- update_dev_data from lib.rs, with the same early-return shape. -/
def Renderer.update_dev_data (r : Renderer)
    (parsed : Except DeserializationError DevData) :
    Renderer × Except DeserializationError Unit :=
  match parsed with
  | Except.ok d => ({ r with dev_data := some d }, Except.ok ())
  | Except.error e => (r, Except.error e)

/-- toggle_dev_tools from lib.rs. -/
def Renderer.toggle_dev_tools (r : Renderer) : Renderer :=
  { r with show_dev_tools := !r.show_dev_tools }

/-- Screen-to-world conversion, the two lines repeated verbatim in
handle_mouse_down, handle_mouse_move, handle_click and handle_right_click:
world = screen / zoom + camera. -/
def Renderer.screen_to_world (r : Renderer) (x y : Rat) : Rat × Rat :=
  (x / r.zoom + r.camera_x, y / r.zoom + r.camera_y)

/-- World-to-screen transform as applied by the render path
(context.translate(-camera*zoom) followed by context.scale(zoom) in
render_selection_box, render_grid, render_troops, render_projectiles):
screen = (world - camera) * zoom. -/
def Renderer.world_to_screen (r : Renderer) (wx wy : Rat) : Rat × Rat :=
  ((wx - r.camera_x) * r.zoom, (wy - r.camera_y) * r.zoom)

/-- is_clicking_selected_troop from lib.rs; the sqrt comparison is embedded
in its equivalent squared form (see the file header). -/
def Renderer.is_clicking_selected_troop (r : Renderer) (world_x world_y : Rat) : Bool :=
  match r.game_state with
  | some game_state =>
      game_state.troops.any (fun troop =>
        r.selected_troops.contains troop.id &&
        decide ((world_x - troop.position.1) * (world_x - troop.position.1) +
                (world_y - troop.position.2) * (world_y - troop.position.2)
                  < (10.0 : Rat) * 10.0))
  | none => false

/-- handle_mouse_down from lib.rs. -/
def Renderer.handle_mouse_down (r : Renderer) (rect : Rect) (event : MouseEvent) :
    Renderer :=
  let x : Rat := (event.client_x : Rat) - rect.left
  let y : Rat := (event.client_y : Rat) - rect.top
  let w := r.screen_to_world x y
  if event.button == 0 then
    if event.alt_key then
      { r with is_dragging := true, last_mouse_x := x, last_mouse_y := y }
    else
      -- The source writes selection_start, selection_end and is_dragging and
      -- then probes self.is_clicking_selected_troop, which reads only
      -- game_state and selected_troops, neither of which was written; the
      -- probe is therefore taken on r directly.
      let clicked := r.is_clicking_selected_troop w.1 w.2
      let r1 := { r with selection_start := some w
                         selection_end := some w
                         is_dragging := false }
      if !clicked then
        { r1 with selected_troops := [] }
      else r1
  else r

/-- handle_mouse_move from lib.rs. -/
def Renderer.handle_mouse_move (r : Renderer) (rect : Rect) (event : MouseEvent) :
    Renderer :=
  let x : Rat := (event.client_x : Rat) - rect.left
  let y : Rat := (event.client_y : Rat) - rect.top
  let w := r.screen_to_world x y
  if r.is_dragging then
    let dx := x - r.last_mouse_x
    let dy := y - r.last_mouse_y
    { r with camera_x := r.camera_x - dx / r.zoom
             camera_y := r.camera_y - dy / r.zoom
             last_mouse_x := x
             last_mouse_y := y }
  else if r.selection_start.isSome then
    { r with selection_end := some w }
  else r

/-- select_troops_in_box from lib.rs: the clear-then-refill of
selected_troops runs only inside both if-lets (snapshot and player id
present); the loop pushes, in snapshot order, the id of every troop of the
bound player whose position lies in the box inclusively. -/
def Renderer.select_troops_in_box (r : Renderer) (min_x min_y max_x max_y : Rat) :
    Renderer :=
  match r.game_state, r.player_id with
  | some game_state, some player_id =>
      { r with selected_troops :=
          ((game_state.troops.filter (fun troop =>
            troop.player_id == player_id &&
            decide (troop.position.1 ≥ min_x) && decide (troop.position.1 ≤ max_x) &&
            decide (troop.position.2 ≥ min_y) && decide (troop.position.2 ≤ max_y))).map
            (fun troop => troop.id)) }
  | _, _ => r

/-- handle_mouse_up from lib.rs; the MouseEvent argument is unused in the
source as well. -/
def Renderer.handle_mouse_up (r : Renderer) (_event : MouseEvent) : Renderer :=
  let r1 :=
    if r.selection_start.isSome && r.selection_end.isSome then
      let s := r.selection_start.getD (0, 0)
      let e := r.selection_end.getD (0, 0)
      let min_x := min s.1 e.1
      let max_x := max s.1 e.1
      let min_y := min s.2 e.2
      let max_y := max s.2 e.2
      let selection_size := (max_x - min_x) * (max_y - min_y)
      let r2 :=
        if selection_size > 25.0 then
          r.select_troops_in_box min_x min_y max_x max_y
        else r
      { r2 with selection_start := none, selection_end := none }
    else r
  { r1 with is_dragging := false }

/-- handle_wheel from lib.rs. -/
def Renderer.handle_wheel (r : Renderer) (delta_y : Rat) : Renderer :=
  let zoom_factor : Rat := if delta_y > 0 then 0.9 else 1.1
  let z := r.zoom * zoom_factor
  { r with zoom := min (max z 0.2) 5.0 }

/-- Spawn command object built by handle_click (Reflect keys position,
direction, count). -/
structure SpawnData where
  position : Rat × Rat
  direction : Rat × Rat
  count : Nat
deriving DecidableEq

/-- Move command object built by handle_right_click (Reflect keys
target_position, troop_ids). -/
structure MoveData where
  target_position : Rat × Rat
  troop_ids : List Nat
deriving DecidableEq

/-- handle_click from lib.rs: the early return when dragging or context is
missing, the find of the bound player, and the spawn object; the Rust code
does not mutate the renderer. -/
def Renderer.handle_click (r : Renderer) (rect : Rect) (event : MouseEvent) :
    Option SpawnData :=
  if r.is_dragging || r.player_id.isNone || r.game_state.isNone then none
  else
    let canvas_x : Rat := (event.client_x : Rat) - rect.left
    let canvas_y : Rat := (event.client_y : Rat) - rect.top
    let w := r.screen_to_world canvas_x canvas_y
    match r.game_state, r.player_id with
    | some game_state, some player_id =>
        match (game_state.players.find? (fun p => p.id == player_id)).map
            (fun p => p.position) with
        | some position =>
            some { position := position
                   direction := (w.1 - position.1, w.2 - position.2)
                   count := 15 }
        | none => none
    | _, _ => none

/-- handle_right_click from lib.rs: the early return on missing context or
empty selection, and the move object whose troop_ids array is built by
copying each id out of selected_troops. -/
def Renderer.handle_right_click (r : Renderer) (rect : Rect) (event : MouseEvent) :
    Option MoveData :=
  if r.player_id.isNone || r.game_state.isNone || r.selected_troops.isEmpty then
    none
  else
    let canvas_x : Rat := (event.client_x : Rat) - rect.left
    let canvas_y : Rat := (event.client_y : Rat) - rect.top
    let w := r.screen_to_world canvas_x canvas_y
    some { target_position := w, troop_ids := r.selected_troops }

/-- get_selected_troops from lib.rs. -/
def Renderer.get_selected_troops (r : Renderer) : List Nat :=
  r.selected_troops

/-- Input events the state machine of claim C7 ranges over.  handle_click and
handle_right_click take &mut self in the source but write no field, so the
click and right-click events leave the state unchanged. -/
inductive InputEvent where
  | mouseDown (rect : Rect) (e : MouseEvent)
  | mouseMove (rect : Rect) (e : MouseEvent)
  | mouseUp (e : MouseEvent)
  | wheel (delta_y : Rat)
  | click (rect : Rect) (e : MouseEvent)
  | rightClick (rect : Rect) (e : MouseEvent)

/-- One input event applied to the renderer state. -/
def Renderer.step (r : Renderer) : InputEvent → Renderer
  | InputEvent.mouseDown rect e => r.handle_mouse_down rect e
  | InputEvent.mouseMove rect e => r.handle_mouse_move rect e
  | InputEvent.mouseUp e => r.handle_mouse_up e
  | InputEvent.wheel d => r.handle_wheel d
  | InputEvent.click _ _ => r
  | InputEvent.rightClick _ _ => r

/-- A sequence of input events applied in order. -/
def Renderer.run (r : Renderer) (es : List InputEvent) : Renderer :=
  es.foldl Renderer.step r

/-- States reachable from Renderer.new by input events in which every
pointer-down is delivered in a released state (no active drag box and not
panning), i.e. pointer-downs and pointer-ups alternate as a physical mouse
produces them. -/
inductive ReachableWf : Renderer → Prop where
  | init : ReachableWf Renderer.new
  | down {r : Renderer} (rect : Rect) (e : MouseEvent) :
      ReachableWf r → r.selection_start = none → r.is_dragging = false →
      ReachableWf (r.handle_mouse_down rect e)
  | move {r : Renderer} (rect : Rect) (e : MouseEvent) :
      ReachableWf r → ReachableWf (r.handle_mouse_move rect e)
  | up {r : Renderer} (e : MouseEvent) :
      ReachableWf r → ReachableWf (r.handle_mouse_up e)
  | wheel {r : Renderer} (d : Rat) :
      ReachableWf r → ReachableWf (r.handle_wheel d)
  | click {r : Renderer} (rect : Rect) (e : MouseEvent) :
      ReachableWf r → ReachableWf r
  | rightClick {r : Renderer} (rect : Rect) (e : MouseEvent) :
      ReachableWf r → ReachableWf r

/-! Concrete fixtures used by witnesses and counterexamples. -/

/-- Troop with the given id, owner and position, all other fields at plain
defaults. -/
def mkTroop (i pid : Nat) (pos : Rat × Rat) : Troop :=
  { id := i
    player_id := pid
    position := pos
    direction := (0, 0)
    speed := 0
    health := 100
    attack := 0
    color := (0, 0, 0)
    shape := "circle"
    unit_type := "soldier"
    is_attacking := false
    weight := 1
    attack_speed := none
    attack_range := none
    attack_cooldown := none
    attack_rate := none
    max_speed := none
    acceleration := none
    min_range := none
    max_range := none
    target := none }

/-- Canvas rectangle at the origin. -/
def rect0 : Rect := { left := 0, top := 0 }

/-- Primary-button mouse event at client (0, 0), no alt key. -/
def evZero : MouseEvent := { client_x := 0, client_y := 0, button := 0, alt_key := false }

/-- Snapshot with one player (id 1 at the origin) and two troops of that
player at (5, 5) and (50, 50), as in scenario C. -/
def gsC : GameState :=
  { players := [{ id := 1, position := (0, 0), color := (0, 0, 0) }]
    troops := [mkTroop 1 1 (5, 5), mkTroop 2 1 (50, 50)]
    projectiles := []
    map_size := (1000, 1000) }

/-- Renderer mid-drag from world (0, 0) to (10, 10) over gsC, bound to
player 1: scenario C. -/
def rC : Renderer :=
  { Renderer.new with
      game_state := some gsC
      player_id := some 1
      selection_start := some (0, 0)
      selection_end := some (10, 10) }

/-- Renderer mid-drag from world (0, 0) to (4, 4) over gsC with a prior
selection: scenario B. -/
def rB : Renderer :=
  { Renderer.new with
      game_state := some gsC
      player_id := some 1
      selection_start := some (0, 0)
      selection_end := some (4, 4)
      selected_troops := [2] }

/-- C3: every wheel event sets zoom to clamp(oldZoom * f, 0.2, 5.0) with
f = 0.9 when the wheel delta is positive and 1.1 otherwise; any finite wheel
sequence started inside [0.2, 5.0] stays inside it; and from zoom = 1 a
positive-delta wheel followed by a non-positive-delta wheel lands on
0.9 * 1.1 = 0.99, not 1. -/
theorem C3_handle_wheel_clamp :
    (∀ (r : Renderer) (d : Rat),
        (r.handle_wheel d).zoom =
          min (max (r.zoom * (if d > 0 then (0.9 : Rat) else 1.1)) 0.2) 5.0) ∧
    (∀ (r : Renderer) (ds : List Rat),
        (0.2 : Rat) ≤ r.zoom → r.zoom ≤ 5.0 →
        (0.2 : Rat) ≤ (ds.foldl Renderer.handle_wheel r).zoom ∧
          (ds.foldl Renderer.handle_wheel r).zoom ≤ 5.0) ∧
    (∀ (r : Renderer), r.zoom = 1 → ∀ (d1 d2 : Rat), d1 > 0 → ¬d2 > 0 →
        ((r.handle_wheel d1).handle_wheel d2).zoom = 0.99) := by
  refine ⟨fun r d => rfl, ?_, ?_⟩
  · intro r ds
    induction ds generalizing r with
    | nil => exact fun h1 h2 => ⟨h1, h2⟩
    | cons d ds ih =>
        intro _ _
        simp only [List.foldl_cons]
        refine ih (r.handle_wheel d) ?_ ?_
        · exact le_min (le_max_right _ _) (by norm_num)
        · exact min_le_right _ _
  · intro r hz d1 d2 h1 h2
    simp only [Renderer.handle_wheel, hz, if_pos h1, if_neg h2]
    norm_num [min_def, max_def]

/-- Witness for C3: from the initial renderer (zoom 1, inside [0.2, 5.0]) a
positive then a negative wheel delta yields zoom 0.99. -/
theorem C3_witness : ((Renderer.new.handle_wheel 1).handle_wheel (-1)).zoom = 0.99 :=
  C3_handle_wheel_clamp.2.2 Renderer.new rfl 1 (-1) (by norm_num) (by norm_num)

/-- C8: with nonzero zoom, the world-to-screen transform used by the render
path and the screen-to-world conversion used by the input handlers are
mutually inverse: each round trip is the identity (exactly, in the rational
model). -/
theorem C8_round_trip (r : Renderer) (hz : r.zoom ≠ 0) (p : Rat × Rat) :
    r.screen_to_world (r.world_to_screen p.1 p.2).1 (r.world_to_screen p.1 p.2).2 = p ∧
    r.world_to_screen (r.screen_to_world p.1 p.2).1 (r.screen_to_world p.1 p.2).2 = p := by
  obtain ⟨px, py⟩ := p
  constructor <;>
    · simp only [Renderer.screen_to_world, Renderer.world_to_screen, Prod.mk.injEq]
      constructor <;> (field_simp; try ring)

/-- Witness for C8: round trip of the point (3, 4) through the initial
viewport (offset (0, 0), zoom 1). -/
theorem C8_witness :
    Renderer.new.screen_to_world (Renderer.new.world_to_screen 3 4).1
        (Renderer.new.world_to_screen 3 4).2 = ((3 : Rat), (4 : Rat)) ∧
    Renderer.new.world_to_screen (Renderer.new.screen_to_world 3 4).1
        (Renderer.new.screen_to_world 3 4).2 = ((3 : Rat), (4 : Rat)) :=
  C8_round_trip Renderer.new (by norm_num [Renderer.new]) (3, 4)

/-- C9: update_game_state either replaces the stored snapshot wholesale with
the deserialized value (leaving every other field untouched) and reports
success, or propagates the deserialization failure with the whole prior
state retained; update_dev_data behaves the same way on its slot. -/
theorem C9_snapshot_atomic :
    (∀ (r : Renderer) (gs : GameState),
        (r.update_game_state (Except.ok gs)).1 = { r with game_state := some gs } ∧
        (r.update_game_state (Except.ok gs)).2 = Except.ok ()) ∧
    (∀ (r : Renderer) (e : DeserializationError),
        (r.update_game_state (Except.error e)).1 = r ∧
        (r.update_game_state (Except.error e)).2 = Except.error e) ∧
    (∀ (r : Renderer) (d : DevData),
        (r.update_dev_data (Except.ok d)).1 = { r with dev_data := some d } ∧
        (r.update_dev_data (Except.ok d)).2 = Except.ok ()) ∧
    (∀ (r : Renderer) (e : DeserializationError),
        (r.update_dev_data (Except.error e)).1 = r ∧
        (r.update_dev_data (Except.error e)).2 = Except.error e) :=
  ⟨fun _ _ => ⟨rfl, rfl⟩, fun _ _ => ⟨rfl, rfl⟩,
   fun _ _ => ⟨rfl, rfl⟩, fun _ _ => ⟨rfl, rfl⟩⟩

/-- C1: a committed drag (mouse-up with both drag endpoints set) whose box
area exceeds 25.0, taken with a snapshot and a bound player id present,
leaves selected_troops equal to exactly the ids (in snapshot order) of the
troops owned by the bound player whose position lies in
[minX, maxX] x [minY, maxY], inclusive on both axes; consequently every
selected id belongs to a troop of the bound player inside the box, so no
unit of another owner is ever included. -/
theorem C1_box_select (r : Renderer) (ev : MouseEvent) (gs : GameState) (pid : Nat)
    (s e : Rat × Rat)
    (hgs : r.game_state = some gs) (hpid : r.player_id = some pid)
    (hs : r.selection_start = some s) (he : r.selection_end = some e)
    (harea : (max s.1 e.1 - min s.1 e.1) * (max s.2 e.2 - min s.2 e.2) > 25.0) :
    (r.handle_mouse_up ev).selected_troops =
      ((gs.troops.filter (fun t =>
        t.player_id == pid &&
        decide (min s.1 e.1 ≤ t.position.1) && decide (t.position.1 ≤ max s.1 e.1) &&
        decide (min s.2 e.2 ≤ t.position.2) && decide (t.position.2 ≤ max s.2 e.2))).map
        (fun t => t.id)) ∧
    ∀ i ∈ (r.handle_mouse_up ev).selected_troops,
      ∃ t ∈ gs.troops, t.id = i ∧ t.player_id = pid ∧
        min s.1 e.1 ≤ t.position.1 ∧ t.position.1 ≤ max s.1 e.1 ∧
        min s.2 e.2 ≤ t.position.2 ∧ t.position.2 ≤ max s.2 e.2 := by
  have hmain : (r.handle_mouse_up ev).selected_troops =
      ((gs.troops.filter (fun t =>
        t.player_id == pid &&
        decide (min s.1 e.1 ≤ t.position.1) && decide (t.position.1 ≤ max s.1 e.1) &&
        decide (min s.2 e.2 ≤ t.position.2) && decide (t.position.2 ≤ max s.2 e.2))).map
        (fun t => t.id)) := by
    simp only [Renderer.handle_mouse_up, hs, he, Option.isSome_some, Bool.and_self, if_true,
      Option.getD_some, harea, Renderer.select_troops_in_box, hgs, hpid, ge_iff_le]
  refine ⟨hmain, ?_⟩
  intro i hi
  rw [hmain] at hi
  simp only [List.mem_map, List.mem_filter] at hi
  obtain ⟨t, ⟨ht, hcond⟩, rfl⟩ := hi
  simp only [Bool.and_eq_true, beq_iff_eq, decide_eq_true_eq] at hcond
  exact ⟨t, ht, rfl, hcond.1.1.1.1, hcond.1.1.1.2, hcond.1.1.2, hcond.1.2, hcond.2⟩

/-- Witness for C1: scenario C — drag (0,0) to (10,10) (area 100) over a
snapshot with same-owner troops at (5,5) and (50,50) selects exactly the
troop at (5,5). -/
theorem C1_witness : (rC.handle_mouse_up evZero).selected_troops = [1] := by
  have h := (C1_box_select rC evZero gsC 1 (0, 0) (10, 10) rfl rfl rfl rfl
    (by norm_num)).1
  rw [h]
  rfl

/-- C2: for a mouse-up ending a drag with both endpoints set, a box of area
at most 25.0 leaves selected_troops unchanged, and in every case both drag
endpoints are reset to none. -/
theorem C2_mouse_up_reset (r : Renderer) (ev : MouseEvent) (s e : Rat × Rat)
    (hs : r.selection_start = some s) (he : r.selection_end = some e) :
    ((max s.1 e.1 - min s.1 e.1) * (max s.2 e.2 - min s.2 e.2) ≤ 25.0 →
      (r.handle_mouse_up ev).selected_troops = r.selected_troops) ∧
    (r.handle_mouse_up ev).selection_start = none ∧
    (r.handle_mouse_up ev).selection_end = none := by
  refine ⟨fun hle => ?_, ?_, ?_⟩
  · simp only [Renderer.handle_mouse_up, hs, he, Option.isSome_some, Bool.and_self, if_true,
      Option.getD_some, if_neg (not_lt.mpr hle)]
  · simp only [Renderer.handle_mouse_up, hs, he, Option.isSome_some, Bool.and_self, if_true]
  · simp only [Renderer.handle_mouse_up, hs, he, Option.isSome_some, Bool.and_self, if_true]

/-- Witness for C2: scenario B — drag (0,0) to (4,4) (area 16) leaves the
prior selection [2] unchanged while both drag endpoints are cleared. -/
theorem C2_witness :
    (rB.handle_mouse_up evZero).selected_troops = [2] ∧
    (rB.handle_mouse_up evZero).selection_start = none ∧
    (rB.handle_mouse_up evZero).selection_end = none := by
  have h := C2_mouse_up_reset rB evZero (0, 0) (4, 4) rfl rfl
  exact ⟨(h.1 (by norm_num)).trans rfl, h.2.1, h.2.2⟩

/-- C10: when the snapshot or the bound player id is missing, a mouse-up
committing a drag of area above 25.0 leaves selected_troops completely
unchanged while still resetting both drag endpoints to none. -/
theorem C10_missing_context (r : Renderer) (ev : MouseEvent) (s e : Rat × Rat)
    (hs : r.selection_start = some s) (he : r.selection_end = some e)
    (hmiss : r.game_state = none ∨ r.player_id = none)
    (harea : (max s.1 e.1 - min s.1 e.1) * (max s.2 e.2 - min s.2 e.2) > 25.0) :
    (r.handle_mouse_up ev).selected_troops = r.selected_troops ∧
    (r.handle_mouse_up ev).selection_start = none ∧
    (r.handle_mouse_up ev).selection_end = none := by
  have hsel : r.select_troops_in_box (min s.1 e.1) (min s.2 e.2) (max s.1 e.1)
      (max s.2 e.2) = r := by
    rcases hmiss with h | h
    · simp [Renderer.select_troops_in_box, h]
    · cases hg : r.game_state <;> simp [Renderer.select_troops_in_box, h, hg]
  refine ⟨?_, ?_, ?_⟩ <;>
    simp only [Renderer.handle_mouse_up, hs, he, Option.isSome_some, Bool.and_self, if_true,
      Option.getD_some, harea, if_pos, hsel]

/-- Renderer mid-drag with no snapshot and no bound player id, with a prior
selection [5]. -/
def rX : Renderer :=
  { Renderer.new with
      selection_start := some (0, 0)
      selection_end := some (10, 10)
      selected_troops := [5] }

/-- Witness for C10: with no snapshot ingested, committing a (0,0)-(10,10)
drag keeps the prior selection [5] and clears the drag endpoints. -/
theorem C10_witness :
    (rX.handle_mouse_up evZero).selected_troops = [5] ∧
    (rX.handle_mouse_up evZero).selection_start = none ∧
    (rX.handle_mouse_up evZero).selection_end = none := by
  have h := C10_missing_context rX evZero (0, 0) (10, 10) rfl rfl (Or.inl rfl)
    (by norm_num)
  exact ⟨h.1.trans rfl, h.2.1, h.2.2⟩

/-- C4: handle_click produces nothing exactly when the client is panning, no
player id is bound, no snapshot is present, or the bound id is absent from
the snapshot player list; otherwise it produces a spawn command whose origin
is the bound player's snapshot position, whose direction is the unnormalized
delta from that position to the click's world point, and whose count is 15. -/
theorem C4_click_spawn (r : Renderer) (rect : Rect) (ev : MouseEvent) :
    (r.handle_click rect ev = none ↔
      r.is_dragging = true ∨ r.player_id = none ∨ r.game_state = none ∨
      ∃ gs pid, r.game_state = some gs ∧ r.player_id = some pid ∧
        gs.players.find? (fun p => p.id == pid) = none) ∧
    (∀ (gs : GameState) (pid : Nat) (p : Player),
      r.is_dragging = false → r.game_state = some gs → r.player_id = some pid →
      gs.players.find? (fun q => q.id == pid) = some p →
      r.handle_click rect ev =
        some { position := p.position
               direction :=
                 ((r.screen_to_world ((ev.client_x : Rat) - rect.left)
                     ((ev.client_y : Rat) - rect.top)).1 - p.position.1,
                  (r.screen_to_world ((ev.client_x : Rat) - rect.left)
                     ((ev.client_y : Rat) - rect.top)).2 - p.position.2)
               count := 15 }) := by
  constructor
  · cases hd : r.is_dragging with
    | true => simp [Renderer.handle_click, hd]
    | false =>
        cases hp : r.player_id with
        | none => simp [Renderer.handle_click, hd, hp]
        | some pid =>
            cases hg : r.game_state with
            | none => simp [Renderer.handle_click, hd, hp, hg]
            | some gs =>
                cases hf : gs.players.find? (fun q => q.id == pid) with
                | none =>
                    have hnone : r.handle_click rect ev = none := by
                      simp [Renderer.handle_click, hd, hp, hg, hf]
                    rw [hnone]
                    exact iff_of_true rfl
                      (Or.inr (Or.inr (Or.inr ⟨gs, pid, rfl, rfl, hf⟩)))
                | some p =>
                    have hne : r.handle_click rect ev ≠ none := by
                      simp [Renderer.handle_click, hd, hp, hg, hf]
                    refine iff_of_false hne ?_
                    rintro (h | h | h | ⟨gs2, pid2, hgs2, hpid2, hfind⟩)
                    · exact absurd h (by simp [hd])
                    · exact absurd h (by simp [hp])
                    · exact absurd h (by simp [hg])
                    · obtain rfl := Option.some.inj hgs2
                      obtain rfl := Option.some.inj hpid2
                      rw [hf] at hfind
                      exact Option.some_ne_none p hfind
  · intro gs pid p hd hg hp hf
    simp [Renderer.handle_click, hd, hg, hp, hf]

/-- Renderer bound to player 1 with snapshot gsC, at the initial viewport:
scenario A. -/
def rA : Renderer :=
  { Renderer.new with player_id := some 1, game_state := some gsC }

/-- Primary-button mouse event at client (50, 50). -/
def evClick : MouseEvent := { client_x := 50, client_y := 50, button := 0, alt_key := false }

/-- Witness for C4: scenario A — offset (0,0), zoom 1, click at screen
(50, 50) with the local player at world (0, 0) yields a spawn command with
origin (0, 0), direction (50, 50) and count 15. -/
theorem C4_witness :
    rA.handle_click rect0 evClick =
      some { position := (0, 0), direction := (50, 50), count := 15 } := by
  have h := (C4_click_spawn rA rect0 evClick).2 gsC 1
    { id := 1, position := (0, 0), color := (0, 0, 0) } rfl rfl rfl rfl
  rw [h]
  simp only [Renderer.screen_to_world, rA, Renderer.new, evClick, rect0,
    Option.some.injEq, SpawnData.mk.injEq, Prod.mk.injEq]
  norm_num

/-- C5: handle_right_click produces nothing exactly when no player id is
bound, no snapshot is present, or the selection is empty; otherwise the
produced move command targets the click's world point and carries the value
of selected_troops at build time (the source copies each id into a fresh
array, so the command cannot alias the live selection). -/
theorem C5_right_click_move (r : Renderer) (rect : Rect) (ev : MouseEvent) :
    (r.handle_right_click rect ev = none ↔
      r.player_id = none ∨ r.game_state = none ∨ r.selected_troops = []) ∧
    (∀ cmd : MoveData, r.handle_right_click rect ev = some cmd →
      cmd.target_position =
        r.screen_to_world ((ev.client_x : Rat) - rect.left)
          ((ev.client_y : Rat) - rect.top) ∧
      cmd.troop_ids = r.selected_troops) := by
  constructor
  · cases hp : r.player_id with
    | none => simp [Renderer.handle_right_click, hp]
    | some pid =>
        cases hg : r.game_state with
        | none => simp [Renderer.handle_right_click, hp, hg]
        | some gs =>
            cases hsel : r.selected_troops with
            | nil => simp [Renderer.handle_right_click, hp, hg, hsel]
            | cons a l => simp [Renderer.handle_right_click, hp, hg, hsel]
  · intro cmd hcmd
    unfold Renderer.handle_right_click at hcmd
    split at hcmd
    · exact absurd hcmd (by simp)
    · injection hcmd with h
      subst h
      exact ⟨rfl, rfl⟩

/-- Renderer bound to player 1 with snapshot gsC and selection [2]. -/
def rM : Renderer :=
  { Renderer.new with
      player_id := some 1
      game_state := some gsC
      selected_troops := [2] }

/-- Witness for C5: scenario E — a right-click with an empty selection
produces nothing, and with selection [2] the built command carries that
selection by value with the click's world point as target. -/
theorem C5_witness :
    rA.handle_right_click rect0 evClick = none ∧
    (MoveData.mk (50, 50) [2]).target_position =
      rM.screen_to_world ((evClick.client_x : Rat) - rect0.left)
        ((evClick.client_y : Rat) - rect0.top) ∧
    (MoveData.mk (50, 50) [2]).troop_ids = rM.selected_troops := by
  have h := (C5_right_click_move rM rect0 evClick).2 (MoveData.mk (50, 50) [2])
    (by
      simp only [Renderer.handle_right_click, Renderer.screen_to_world, rM,
        Renderer.new, evClick, rect0, Option.isNone_some, Bool.or_self,
        Bool.false_or, Bool.or_false, List.isEmpty_cons, if_false,
        Option.some.injEq, MoveData.mk.injEq, Prod.mk.injEq]
      norm_num)
  exact ⟨(C5_right_click_move rA rect0 evClick).1.mpr (Or.inr (Or.inr rfl)), h.1, h.2⟩

/-- C6: a primary-button pointer-down without the alt (pan) modifier sets
both drag endpoints to the click's world point and leaves panning off; the
selection is cleared exactly when the click's world point is not within the
10.0 hit radius (strict Euclidean comparison in the source, stated here on
squared distances) of any currently-selected troop present in the snapshot,
and preserved otherwise. -/
theorem C6_down_select (r : Renderer) (rect : Rect) (ev : MouseEvent) (w : Rat × Rat)
    (hb : ev.button = 0) (ha : ev.alt_key = false)
    (hw : w = r.screen_to_world ((ev.client_x : Rat) - rect.left)
        ((ev.client_y : Rat) - rect.top)) :
    (r.handle_mouse_down rect ev).selection_start = some w ∧
    (r.handle_mouse_down rect ev).selection_end = some w ∧
    (r.handle_mouse_down rect ev).is_dragging = false ∧
    (r.handle_mouse_down rect ev).selected_troops =
      (if r.is_clicking_selected_troop w.1 w.2 then r.selected_troops else []) ∧
    (r.is_clicking_selected_troop w.1 w.2 = true ↔
      ∃ gs, r.game_state = some gs ∧ ∃ t ∈ gs.troops, t.id ∈ r.selected_troops ∧
        (w.1 - t.position.1) * (w.1 - t.position.1) +
          (w.2 - t.position.2) * (w.2 - t.position.2) < (10.0 : Rat) * 10.0) := by
  subst hw
  refine ⟨?_, ?_, ?_, ?_, ?_⟩
  · cases hc : r.is_clicking_selected_troop
        (r.screen_to_world ((ev.client_x : Rat) - rect.left)
          ((ev.client_y : Rat) - rect.top)).1
        (r.screen_to_world ((ev.client_x : Rat) - rect.left)
          ((ev.client_y : Rat) - rect.top)).2 <;>
      simp [Renderer.handle_mouse_down, hb, ha, hc]
  · cases hc : r.is_clicking_selected_troop
        (r.screen_to_world ((ev.client_x : Rat) - rect.left)
          ((ev.client_y : Rat) - rect.top)).1
        (r.screen_to_world ((ev.client_x : Rat) - rect.left)
          ((ev.client_y : Rat) - rect.top)).2 <;>
      simp [Renderer.handle_mouse_down, hb, ha, hc]
  · cases hc : r.is_clicking_selected_troop
        (r.screen_to_world ((ev.client_x : Rat) - rect.left)
          ((ev.client_y : Rat) - rect.top)).1
        (r.screen_to_world ((ev.client_x : Rat) - rect.left)
          ((ev.client_y : Rat) - rect.top)).2 <;>
      simp [Renderer.handle_mouse_down, hb, ha, hc]
  · cases hc : r.is_clicking_selected_troop
        (r.screen_to_world ((ev.client_x : Rat) - rect.left)
          ((ev.client_y : Rat) - rect.top)).1
        (r.screen_to_world ((ev.client_x : Rat) - rect.left)
          ((ev.client_y : Rat) - rect.top)).2 <;>
      simp [Renderer.handle_mouse_down, hb, ha, hc]
  · cases hg : r.game_state with
    | none => simp [Renderer.is_clicking_selected_troop, hg]
    | some gs =>
        simp [Renderer.is_clicking_selected_troop, hg, List.any_eq_true,
          Bool.and_eq_true, decide_eq_true_eq, List.contains, List.elem_eq_mem]

/-- Renderer over gsC with troop 1 currently selected. -/
def rW : Renderer :=
  { Renderer.new with
      game_state := some gsC
      selected_troops := [1] }

/-- Primary-button mouse event at client (3, 4), no alt key. -/
def evW : MouseEvent := { client_x := 3, client_y := 4, button := 0, alt_key := false }

/-- Witness for C6: clicking at world (3, 4), within radius 10 of the
selected troop at (5, 5), sets both drag endpoints and preserves the
selection [1]. -/
theorem C6_witness :
    (rW.handle_mouse_down rect0 evW).selection_start = some (3, 4) ∧
    (rW.handle_mouse_down rect0 evW).selection_end = some (3, 4) ∧
    (rW.handle_mouse_down rect0 evW).selected_troops = [1] := by
  have hc : rW.is_clicking_selected_troop 3 4 = true := by
    simp only [Renderer.is_clicking_selected_troop, rW, Renderer.new, gsC, mkTroop,
      List.any_cons, List.any_nil, List.contains, Bool.or_eq_true, Bool.and_eq_true,
      decide_eq_true_eq]
    norm_num
  have h := C6_down_select rW rect0 evW (3, 4) rfl rfl
    (by
      simp only [Renderer.screen_to_world, rW, Renderer.new, evW, rect0, Prod.mk.injEq]
      norm_num)
  refine ⟨h.1, h.2.1, ?_⟩
  rw [h.2.2.2.1]
  have hc2 : rW.is_clicking_selected_troop (3, 4).1 (3, 4).2 = true := hc
  rw [if_pos hc2]
  rfl

/-- Primary-button mouse event at client (0, 0) with the alt key held. -/
def evDownAlt : MouseEvent := { client_x := 0, client_y := 0, button := 0, alt_key := true }

/-- Counterexample for C7 as literally stated: over arbitrary event
sequences the modes can overlap.  From the initial state, a primary
pointer-down without alt (opening a drag box) followed by a primary
pointer-down with alt (starting a pan) leaves is_dragging true while
selection_start is still present, because the pan branch never clears the
drag box. -/
theorem C7_counterexample :
    (Renderer.new.run [InputEvent.mouseDown rect0 evZero,
        InputEvent.mouseDown rect0 evDownAlt]).is_dragging = true ∧
    (Renderer.new.run [InputEvent.mouseDown rect0 evZero,
        InputEvent.mouseDown rect0 evDownAlt]).selection_start.isSome = true := by
  constructor <;> rfl

/-- C7 (amended): in every state reachable when each pointer-down is
delivered in a released state (no active drag box, not panning) — pointer
downs and ups alternating as a physical mouse produces them — panning and
box selection never overlap: is_dragging is never true while a drag box
start is present. -/
theorem C7_no_mode_overlap (r : Renderer) (h : ReachableWf r) :
    ¬(r.is_dragging = true ∧ r.selection_start.isSome = true) := by
  induction h with
  | init => simp [Renderer.new]
  | @down s rect e hr hstart hdrag ih =>
      rcases eq_or_ne e.button 0 with hb | hb
      · cases hak : e.alt_key with
        | true => simp [Renderer.handle_mouse_down, hb, hak, hstart]
        | false =>
            simp [Renderer.handle_mouse_down, hb, hak]
            split <;> simp
      · simp [Renderer.handle_mouse_down, hb, hdrag]
  | @move s rect e hr ih =>
      simp only [Renderer.handle_mouse_move]
      split
      · exact ih
      · split
        · rename_i hnd _
          intro hcontra
          exact hnd hcontra.1
        · exact ih
  | @up s e hr ih =>
      intro hcontra
      have hfalse : (s.handle_mouse_up e).is_dragging = false := rfl
      rw [hfalse] at hcontra
      exact absurd hcontra.1 (by simp)
  | @wheel s d hr ih => exact ih
  | @click s rect e hr ih => exact ih
  | @rightClick s rect e hr ih => exact ih

/-- Witness for C7: the initial state is reachable and satisfies the
invariant. -/
theorem C7_witness :
    ¬(Renderer.new.is_dragging = true ∧ Renderer.new.selection_start.isSome = true) :=
  C7_no_mode_overlap Renderer.new ReachableWf.init
